import Mathlib

/-!
Shallow embedding of `rand.c`: a program that emits pseudo-random bytes
from the OpenSSL RAND API, seeding it from a persistent seed file with a
fallback to an entropy device, and persisting generator state afterward.

The embedding models:
* the seed-selection portion of `seed_rand` (rand.c:58-100) as a pure
  function over the observable state of the seed file;
* the output loop and exit policy of `main` (rand.c:219-248) as a pure
  function of the parsed byte count, the hex flag, and an environment
  recording the outcomes of the opaque OpenSSL calls;
* `strtol` (base 10, as used at rand.c:200) and `args_sanity`
  (rand.c:205-217) over argument strings.

Opaque library calls (`RAND_load_file`, `RAND_bytes`, `RAND_write_file`)
are modelled as oracles in an `Env` record: a success flag each, plus the
buffer contents `RAND_bytes` would deposit on success. Writes to stderr
(diagnostics) are modelled as a list of diagnostic tags where a claim
needs them; `perror` text is not modelled.
-/

/-- ENTROPY_SIZE from rand.c:32: minimum trusted seed-file size in bytes. -/
def ENTROPY_SIZE : Int := 32

/-- MAX_BYTES from rand.c:34: the cap on the requested byte count. -/
def MAX_BYTES : Nat := 1024

/-- Observable result of `lstat` on the seed path: whether it is a regular
file (`S_ISREG (seed_stat.st_mode)`) and its size (`seed_stat.st_size`, an
`off_t`, a 64-bit signed integer on the modelled target, carried here as a
mathematical integer; the narrowing of `off_t` to `int` in the assignment
at rand.c:92 is modelled by `toCInt` inside `selectSeed`). -/
structure FileStat where
  isReg : Bool
  stSize : Int
deriving DecidableEq, Repr

/-- State of the primary seed file as the program can observe it:
either `access (seed_file, R_OK | W_OK)` fails (missing file, wrong
permissions, ...), or it succeeds and `lstat` reports a `FileStat`.
On a static filesystem a path that passes `access` for read and write
exists and resolves, so `lstat` on it succeeds; the defensive
`lstat`-failure branch at rand.c:67-70 is unreachable in this state
space and is not modelled. -/
inductive FileState where
  | inaccessible
  | accessible (st : FileStat)
deriving DecidableEq, Repr

/-- Which path the selection settles on: the primary seed file
(SEED_FILE, "/var/lib/rand/rand.seed") or the fallback entropy device
(ENTROPY_SOURCE, "/dev/random"). -/
inductive SeedPath where
  | primary
  | fallback
deriving DecidableEq, Repr

/-- Diagnostic messages (stderr) that the selection step can emit:
"Seed file isn't regular file ..." (rand.c:76), "Seed file is too samll
..." (rand.c:86), "Unable to access seed file ..." (rand.c:96). -/
inductive Diag where
  | notRegular
  | tooSmall
  | noAccess
deriving DecidableEq, Repr

/-- Outcome of the selection portion of `seed_rand` (rand.c:63-100):
the chosen source `seed`, the byte count `size` that will be passed to
`RAND_load_file`, how many times `unlink (seed_file)` was attempted,
and the diagnostics emitted. -/
structure SeedSelection where
  seed : SeedPath
  size : Int
  unlinkAttempts : Nat
  diags : List Diag
deriving DecidableEq, Repr

/-- INT_MAX of the 32-bit C `int` on the modelled target (limits.h). -/
def INT_MAX_C : Int := 2147483647

/-- Narrowing of a wider signed value to the 32-bit C `int`, as in the
assignment `size = seed_stat.st_size` at rand.c:92: two's-complement
wrap into [-2147483648, 2147483647] (the conversion is
implementation-defined in C; this is the behavior of the modelled
target's compilers). Written with the numerals 2^31 = 2147483648 and
2^32 = 4294967296. -/
def toCInt (v : Int) : Int :=
  (v + 2147483648) % 4294967296 - 2147483648

/-- The seed-selection logic of `seed_rand` (rand.c:63-100), translated
branch for branch. Locals start as `seed = seed_file`, `size =
ENTROPY_SIZE`. If `access` fails, fall back (rand.c:94-100). Otherwise
the two `if`s at rand.c:71 and rand.c:83 run in sequence: note the
second is NOT in an `else` of the first, so a non-regular file still
has its stat size compared against ENTROPY_SIZE, and a non-regular file
of size below ENTROPY_SIZE reaches `unlink` twice. The comparison at
rand.c:83 promotes ENTROPY_SIZE to `off_t`, so it is on the full stat
size; the assignment at rand.c:92 stores the `off_t` stat size into the
`int` local `size`, narrowed by `toCInt`. -/
def selectSeed (fs : FileState) : SeedSelection :=
  match fs with
  | FileState.inaccessible =>
      { seed := SeedPath.fallback, size := ENTROPY_SIZE,
        unlinkAttempts := 0, diags := [Diag.noAccess] }
  | FileState.accessible st =>
      let s1 : SeedPath := if st.isReg then SeedPath.primary else SeedPath.fallback
      let u1 : Nat := if st.isReg then 0 else 1
      let d1 : List Diag := if st.isReg then [] else [Diag.notRegular]
      if st.stSize < ENTROPY_SIZE then
        { seed := SeedPath.fallback, size := ENTROPY_SIZE,
          unlinkAttempts := u1 + 1, diags := d1 ++ [Diag.tooSmall] }
      else
        { seed := s1, size := toCInt st.stSize, unlinkAttempts := u1, diags := d1 }

/-- Environment of one run: the state of the seed file and the outcomes
of the opaque OpenSSL calls. `loadOk` is whether `RAND_load_file (seed,
size)` returns `size` (rand.c:102); `drawOk` is whether `RAND_bytes`
returns 1 (rand.c:158); `buffer` is the contents `RAND_bytes` deposits
into `buffer` on success (each cell an `unsigned char`); `persistOk` is
whether `RAND_write_file` succeeds inside `seed_save` (rand.c:141-142). -/
structure Env where
  seedFile : FileState
  loadOk : Bool
  drawOk : Bool
  buffer : Nat → Fin 256
  persistOk : Bool

/-- Steps of a run, in the order `main` performs them. -/
inductive Event where
  | selected (sel : SeedSelection)
  | loaded
  | drew
  | wrote (out : List Nat)
  | persisted (ok : Bool)
deriving DecidableEq, Repr

/-- Result of a run: the ordered step trace, the bytes written to
standard output, and the process exit status. -/
structure RunResult where
  events : List Event
  stdout : List Nat
  exitCode : Nat
deriving DecidableEq, Repr

/-- ASCII code of the lowercase hexadecimal digit for `n < 16`, as
produced by `printf ("%02x", ...)` (rand.c:239). -/
def hexDigitCode (n : Nat) : Nat :=
  if n < 10 then 48 + n else 87 + n

/-- The two ASCII codes `printf ("%02x", b)` writes for a byte `b`:
high nibble then low nibble, zero-padded to width two. -/
def byteHex (b : Fin 256) : List Nat :=
  [hexDigitCode (b.val / 16), hexDigitCode (b.val % 16)]

/-- Whether an ASCII code is a lowercase hexadecimal digit
(0-9 or a-f). -/
def isLowerHex (c : Nat) : Bool :=
  (48 ≤ c && c ≤ 57) || (97 ≤ c && c ≤ 102)

/-- Bytes `main` writes to standard output on the success path
(rand.c:237-244): in hex mode, two lowercase hex digits per buffer byte
followed by one newline (ASCII 10); otherwise the raw buffer bytes,
with no trailing newline. -/
def progOutput (hex : Bool) (n : Nat) (buf : Nat → Fin 256) : List Nat :=
  if hex then
    ((List.range n).flatMap fun i => byteHex (buf i)) ++ [10]
  else
    (List.range n).map fun i => (buf i).val

/-- LONG_MAX for the 64-bit `long` of rand.c's target. -/
def LONG_MAX : Int := 2 ^ 63 - 1

/-- LONG_MIN for the 64-bit `long` of rand.c's target. -/
def LONG_MIN : Int := -(2 ^ 63)

/-- Whether a character is one `isspace` accepts (the whitespace
`strtol` skips). -/
def isSpaceChar (c : Char) : Bool :=
  c = ' ' || c = '\t' || c = '\n' || c = '\x0b' || c = '\x0c' || c = '\r'

/-- Whether a character is a decimal digit. -/
def isDigitChar (c : Char) : Bool :=
  '0' ≤ c && c ≤ '9'

/-- Value of a list of decimal digit values read left to right. -/
def digitsVal (ds : List Nat) : Nat :=
  ds.foldl (fun a d => 10 * a + d) 0

/-- Model of `strtol (s, NULL, 10)` as called at rand.c:200: skip
leading whitespace, consume an optional sign and then the longest run
of decimal digits, ignore everything after it, return 0 when no digits
are found, and clamp to LONG_MAX / LONG_MIN on overflow. -/
def strtol10 (s : List Char) : Int :=
  let s1 := s.dropWhile isSpaceChar
  let signed : Bool × List Char :=
    match s1 with
    | '-' :: rest => (true, rest)
    | '+' :: rest => (false, rest)
    | _ => (false, s1)
  let mag : Int := digitsVal ((signed.2.takeWhile isDigitChar).map
    fun c => c.toNat - 48)
  let v : Int := if signed.1 then -mag else mag
  if v > LONG_MAX then LONG_MAX
  else if v < LONG_MIN then LONG_MIN
  else v

/-- Conversion of a `long` value to `size_t` (64-bit, modular), as in
the assignment `args.bytes = strtol (...)` at rand.c:200. -/
def toSizeT (v : Int) : Nat :=
  (v % (2 ^ 64)).toNat

/-- The value `args_parse` stores into `args.bytes` for a byte-count
argument string (rand.c:200). -/
def argsBytes (s : List Char) : Nat :=
  toSizeT (strtol10 s)

/-- Model of `args_sanity` (rand.c:205-217): true when the arguments
are rejected. `args.bytes` is a `size_t`, so the comparisons against
LONG_MIN and LONG_MAX compare against their `size_t` conversions, and
`args.bytes <= 0` holds only at 0. -/
def args_sanity (bytes : Nat) : Bool :=
  bytes == toSizeT LONG_MIN ||
  bytes == toSizeT LONG_MAX ||
  bytes > MAX_BYTES ||
  bytes == 0

/-- Model of `main` from after `args_parse` has stored `bytesArg` into
`args.bytes` (rand.c:227-247): sanity-check the byte count, run
seed selection and `RAND_load_file` (`seed_rand`), draw via
`RAND_bytes` (`get_rand`), write the output, then attempt `seed_save`,
whose result is ignored, and exit 0. Each fatal path exits 1 with
nothing on standard output. -/
def runMain (bytesArg : Nat) (hex : Bool) (env : Env) : RunResult :=
  if args_sanity bytesArg then
    { events := [], stdout := [], exitCode := 1 }
  else
    let sel := selectSeed env.seedFile
    if ¬ env.loadOk then
      { events := [Event.selected sel], stdout := [], exitCode := 1 }
    else if ¬ env.drawOk then
      { events := [Event.selected sel, Event.loaded], stdout := [],
        exitCode := 1 }
    else
      let out := progOutput hex bytesArg env.buffer
      { events := [Event.selected sel, Event.loaded, Event.drew,
                   Event.wrote out, Event.persisted env.persistOk],
        stdout := out, exitCode := 0 }

/-- A full run starting from the byte-count argument string. -/
def runFromArg (s : List Char) (hex : Bool) (env : Env) : RunResult :=
  runMain (argsBytes s) hex env

/-- Modelled from the spec: "a positional integer argument `bytes`" and
"Malformed ... arguments" (spec sections 6 and 8). A well-formed decimal
integer argument is a nonempty string of decimal digits, optionally
sign-prefixed; anything else is malformed. This definition follows the
spec's words, for comparison with the code's `strtol`-based parsing. -/
def wellFormedDecimal (s : List Char) : Bool :=
  match s with
  | '-' :: rest => rest ≠ [] && rest.all isDigitChar
  | '+' :: rest => rest ≠ [] && rest.all isDigitChar
  | _ => s ≠ [] && s.all isDigitChar

/-- A concrete environment in which every opaque call succeeds; used to
instantiate theorems with hypotheses at concrete inputs. -/
def okEnv : Env :=
  { seedFile := FileState.inaccessible, loadOk := true, drawOk := true,
    buffer := fun _ => 0, persistOk := true }

lemma toSizeT_LONG_MIN_eq : toSizeT LONG_MIN = 9223372036854775808 := by decide

lemma toSizeT_LONG_MAX_eq : toSizeT LONG_MAX = 9223372036854775807 := by decide

lemma args_sanity_in_range {n : Nat} (h1 : 1 ≤ n) (h2 : n ≤ MAX_BYTES) :
    args_sanity n = false := by
  unfold args_sanity
  rw [toSizeT_LONG_MIN_eq, toSizeT_LONG_MAX_eq]
  simp only [Bool.or_eq_false_iff, beq_eq_false_iff_ne, ne_eq,
    decide_eq_false_iff_not, not_lt, gt_iff_lt]
  simp only [MAX_BYTES] at h2
  refine ⟨⟨⟨by omega, by omega⟩, ?_⟩, by omega⟩
  simp only [MAX_BYTES]
  omega

lemma byteHex_length (b : Fin 256) : (byteHex b).length = 2 := rfl

lemma hexBody_length (n : Nat) (buf : Nat → Fin 256) :
    ((List.range n).flatMap fun i => byteHex (buf i)).length = 2 * n := by
  induction n with
  | zero => rfl
  | succ k ih =>
      rw [List.range_succ, List.flatMap_append]
      simp [ih, byteHex_length]
      omega

lemma hexDigitCode_lower {n : Nat} (h : n < 16) :
    isLowerHex (hexDigitCode n) = true := by
  simp only [hexDigitCode, isLowerHex]
  split <;>
    simp only [Bool.or_eq_true, Bool.and_eq_true, decide_eq_true_eq] <;>
    omega

lemma byteHex_lower (b : Fin 256) : ∀ c ∈ byteHex b, isLowerHex c = true := by
  intro c hc
  have hb := b.isLt
  simp only [byteHex, List.mem_cons, List.not_mem_nil, or_false] at hc
  rcases hc with h | h <;> subst h <;> exact hexDigitCode_lower (by omega)

lemma hexBody_mem (n : Nat) (buf : Nat → Fin 256) :
    ∀ c ∈ (List.range n).flatMap fun i => byteHex (buf i),
      isLowerHex c = true := by
  intro c hc
  rw [List.mem_flatMap] at hc
  obtain ⟨i, _, hci⟩ := hc
  exact byteHex_lower (buf i) c hci

/-- C1: Seed selection never fails: for every state of the primary seed
file (accessible or not, regular file or not, any size), whenever the
argument sanity check passes, selection resolves to some path (primary
or fallback), the run's first event is that completed selection, and any
non-zero exit arises from the load or draw oracle, never from selection
itself. -/
theorem C1_selection_never_fails (bytesArg : Nat) (hex : Bool) (env : Env)
    (h : args_sanity bytesArg = false) :
    ((selectSeed env.seedFile).seed = SeedPath.primary ∨
      (selectSeed env.seedFile).seed = SeedPath.fallback) ∧
    (runMain bytesArg hex env).events.head? =
      some (Event.selected (selectSeed env.seedFile)) ∧
    ((runMain bytesArg hex env).exitCode ≠ 0 →
      env.loadOk = false ∨ env.drawOk = false) := by
  refine ⟨?_, ?_⟩
  · cases (selectSeed env.seedFile).seed <;> simp
  · cases hl : env.loadOk <;> cases hd : env.drawOk <;>
      simp [runMain, h, hl, hd]

theorem C1_witness :
    args_sanity 16 = false ∧
    (((selectSeed okEnv.seedFile).seed = SeedPath.primary ∨
       (selectSeed okEnv.seedFile).seed = SeedPath.fallback) ∧
     (runMain 16 false okEnv).events.head? =
       some (Event.selected (selectSeed okEnv.seedFile)) ∧
     ((runMain 16 false okEnv).exitCode ≠ 0 →
       okEnv.loadOk = false ∨ okEnv.drawOk = false)) :=
  ⟨by decide, C1_selection_never_fails 16 false okEnv (by decide)⟩

/-- C2: For every valid byte count in [1,1024] on a successful run, raw
mode writes exactly the `byte_count` buffer bytes (no newline appended),
and hex mode writes a body of exactly `2 * byte_count` lowercase
hexadecimal character codes (two digits per byte, no separators)
followed by exactly one trailing newline. -/
theorem C2_output_format (n : Nat) (hex : Bool) (env : Env)
    (h1 : 1 ≤ n) (h2 : n ≤ MAX_BYTES)
    (hl : env.loadOk = true) (hd : env.drawOk = true) :
    (runMain n hex env).exitCode = 0 ∧
    (hex = false →
      (runMain n hex env).stdout =
        ((List.range n).map fun i => (env.buffer i).val) ∧
      (runMain n hex env).stdout.length = n) ∧
    (hex = true →
      ∃ body, (runMain n hex env).stdout = body ++ [10] ∧
        body.length = 2 * n ∧ ∀ c ∈ body, isLowerHex c = true) := by
  have hs := args_sanity_in_range h1 h2
  refine ⟨by simp [runMain, hs, hl, hd], ?_, ?_⟩
  · intro hx
    subst hx
    simp [runMain, hs, hl, hd, progOutput]
  · intro hx
    subst hx
    refine ⟨(List.range n).flatMap fun i => byteHex (env.buffer i), ?_,
      hexBody_length n env.buffer, hexBody_mem n env.buffer⟩
    simp [runMain, hs, hl, hd, progOutput]

theorem C2_witness :
    1 ≤ 2 ∧ 2 ≤ MAX_BYTES ∧ okEnv.loadOk = true ∧ okEnv.drawOk = true ∧
    ((runMain 2 true okEnv).exitCode = 0 ∧
     (true = false →
       (runMain 2 true okEnv).stdout =
         ((List.range 2).map fun i => (okEnv.buffer i).val) ∧
       (runMain 2 true okEnv).stdout.length = 2) ∧
     (true = true →
       ∃ body, (runMain 2 true okEnv).stdout = body ++ [10] ∧
         body.length = 2 * 2 ∧ ∀ c ∈ body, isLowerHex c = true)) :=
  ⟨by decide, by decide, rfl, rfl,
    C2_output_format 2 true okEnv (by decide) (by decide) rfl rfl⟩

/-- C3: If the draw operation (`RAND_bytes`) fails, the process writes
no bytes at all to standard output and exits with a non-zero status. -/
theorem C3_draw_failure_no_output (n : Nat) (hex : Bool) (env : Env)
    (hd : env.drawOk = false) :
    (runMain n hex env).stdout = [] ∧ (runMain n hex env).exitCode ≠ 0 := by
  cases hs : args_sanity n <;> cases hl : env.loadOk <;>
    simp [runMain, hs, hl, hd]

theorem C3_witness :
    ({ okEnv with drawOk := false } : Env).drawOk = false ∧
    ((runMain 16 false { okEnv with drawOk := false }).stdout = [] ∧
     (runMain 16 false { okEnv with drawOk := false }).exitCode ≠ 0) :=
  ⟨rfl, C3_draw_failure_no_output 16 false { okEnv with drawOk := false } rfl⟩

/-- C4: If persisting the seed fails after a successful draw, standard
output is identical to a run where persistence succeeds (output is
emitted before persistence is attempted: the `wrote` event immediately
precedes the `persisted` event in the trace), and the exit status is
success in both runs; the persistence result never influences the exit
status. -/
theorem C4_persist_failure_nonfatal (n : Nat) (hex : Bool) (env : Env)
    (hs : args_sanity n = false)
    (hl : env.loadOk = true) (hd : env.drawOk = true) :
    (runMain n hex { env with persistOk := false }).stdout =
      (runMain n hex { env with persistOk := true }).stdout ∧
    (runMain n hex { env with persistOk := false }).exitCode = 0 ∧
    (runMain n hex { env with persistOk := true }).exitCode = 0 ∧
    ∃ pre, (runMain n hex { env with persistOk := false }).events =
      pre ++ [Event.wrote ((runMain n hex { env with persistOk := false }).stdout),
              Event.persisted false] := by
  refine ⟨?_, ?_, ?_,
    ⟨[Event.selected (selectSeed env.seedFile), Event.loaded, Event.drew], ?_⟩⟩ <;>
    simp [runMain, hs, hl, hd]

theorem C4_witness :
    args_sanity 16 = false ∧ okEnv.loadOk = true ∧ okEnv.drawOk = true ∧
    ((runMain 16 true { okEnv with persistOk := false }).stdout =
       (runMain 16 true { okEnv with persistOk := true }).stdout ∧
     (runMain 16 true { okEnv with persistOk := false }).exitCode = 0 ∧
     (runMain 16 true { okEnv with persistOk := true }).exitCode = 0 ∧
     ∃ pre, (runMain 16 true { okEnv with persistOk := false }).events =
       pre ++ [Event.wrote ((runMain 16 true { okEnv with persistOk := false }).stdout),
               Event.persisted false]) :=
  ⟨by decide, rfl, rfl,
    C4_persist_failure_nonfatal 16 true okEnv (by decide) rfl rfl⟩

/-- C5: For every accessible regular seed file whose size is below
ENTROPY_SIZE (32), selection chooses the fallback device, attempts to
delete the undersized file exactly once, and emits the too-small
diagnostic. -/
theorem C5_undersized_regular_file (st : FileStat)
    (hr : st.isReg = true) (hs : st.stSize < ENTROPY_SIZE) :
    (selectSeed (FileState.accessible st)).seed = SeedPath.fallback ∧
    (selectSeed (FileState.accessible st)).unlinkAttempts = 1 ∧
    Diag.tooSmall ∈ (selectSeed (FileState.accessible st)).diags := by
  simp [selectSeed, hr, hs]

theorem C5_witness :
    (FileStat.mk true 10).isReg = true ∧
    (FileStat.mk true 10).stSize < ENTROPY_SIZE ∧
    ((selectSeed (FileState.accessible (FileStat.mk true 10))).seed =
       SeedPath.fallback ∧
     (selectSeed (FileState.accessible (FileStat.mk true 10))).unlinkAttempts = 1 ∧
     Diag.tooSmall ∈ (selectSeed (FileState.accessible (FileStat.mk true 10))).diags) :=
  ⟨rfl, by decide, C5_undersized_regular_file (FileStat.mk true 10) rfl (by decide)⟩

/-- C6: For every accessible seed path that is not a regular file,
selection chooses the fallback device, attempts to delete the path at
least once, and emits the not-a-regular-file diagnostic. -/
theorem C6_not_regular_file (st : FileStat) (hr : st.isReg = false) :
    (selectSeed (FileState.accessible st)).seed = SeedPath.fallback ∧
    1 ≤ (selectSeed (FileState.accessible st)).unlinkAttempts ∧
    Diag.notRegular ∈ (selectSeed (FileState.accessible st)).diags := by
  by_cases hs : st.stSize < ENTROPY_SIZE <;> simp [selectSeed, hr, hs]

theorem C6_witness :
    (FileStat.mk false 4096).isReg = false ∧
    ((selectSeed (FileState.accessible (FileStat.mk false 4096))).seed =
       SeedPath.fallback ∧
     1 ≤ (selectSeed (FileState.accessible (FileStat.mk false 4096))).unlinkAttempts ∧
     Diag.notRegular ∈
       (selectSeed (FileState.accessible (FileStat.mk false 4096))).diags) :=
  ⟨rfl, C6_not_regular_file (FileStat.mk false 4096) rfl⟩

/-- C7: When the seed path is not accessible for both reading and
writing, selection chooses the fallback device, emits the
cannot-access diagnostic, and never attempts a deletion (the
filesystem entry is left untouched by selection). -/
theorem C7_inaccessible_no_delete :
    (selectSeed FileState.inaccessible).seed = SeedPath.fallback ∧
    (selectSeed FileState.inaccessible).unlinkAttempts = 0 ∧
    (selectSeed FileState.inaccessible).diags = [Diag.noAccess] :=
  ⟨rfl, rfl, rfl⟩

lemma toCInt_eq_self {v : Int} (h1 : -2147483648 ≤ v) (h2 : v ≤ 2147483647) :
    toCInt v = v := by
  unfold toCInt
  omega

/-- C8 counterexample: a regular, accessible seed file of stat size
2^31 = 2147483648 bytes (above INT_MAX) is selected as the primary
source, but the `int` local `size` at rand.c:92 wraps, so the read size
passed to `RAND_load_file` is not the file's byte length; the original
claim's conclusion fails at this input. -/
theorem C8_counterexample :
    (FileStat.mk true 2147483648).isReg = true ∧
    ENTROPY_SIZE ≤ (FileStat.mk true 2147483648).stSize ∧
    (selectSeed (FileState.accessible (FileStat.mk true 2147483648))).seed =
      SeedPath.primary ∧
    (selectSeed (FileState.accessible (FileStat.mk true 2147483648))).size ≠
      (FileStat.mk true 2147483648).stSize := by
  refine ⟨rfl, by decide, by decide, by decide⟩

/-- C8 amended: Round-trip of the read size: for every accessible
regular seed file of size at least ENTROPY_SIZE (32) and at most
INT_MAX (2147483647), selection chooses the primary path, requests
exactly the file's own byte length (not a fixed constant), and attempts
no deletion; hence selecting a freshly persisted seed file on the next
run reads exactly its new length. (Beyond INT_MAX the `off_t` to `int`
narrowing at rand.c:92 makes the requested size the wrapped value.) -/
theorem C8_read_size_matches_file_length (st : FileStat)
    (hr : st.isReg = true) (hs : ENTROPY_SIZE ≤ st.stSize)
    (hmax : st.stSize ≤ INT_MAX_C) :
    (selectSeed (FileState.accessible st)).seed = SeedPath.primary ∧
    (selectSeed (FileState.accessible st)).size = st.stSize ∧
    (selectSeed (FileState.accessible st)).unlinkAttempts = 0 := by
  have hlt : ¬ st.stSize < ENTROPY_SIZE := not_lt.mpr hs
  have hge : (-2147483648 : Int) ≤ st.stSize := by
    unfold ENTROPY_SIZE at hs
    omega
  have hle : st.stSize ≤ 2147483647 := hmax
  simp [selectSeed, hr, hlt, toCInt_eq_self hge hle]

theorem C8_witness :
    (FileStat.mk true 64).isReg = true ∧
    ENTROPY_SIZE ≤ (FileStat.mk true 64).stSize ∧
    (FileStat.mk true 64).stSize ≤ INT_MAX_C ∧
    ((selectSeed (FileState.accessible (FileStat.mk true 64))).seed =
       SeedPath.primary ∧
     (selectSeed (FileState.accessible (FileStat.mk true 64))).size =
       (FileStat.mk true 64).stSize ∧
     (selectSeed (FileState.accessible (FileStat.mk true 64))).unlinkAttempts = 0) :=
  ⟨rfl, by decide, by decide,
    C8_read_size_matches_file_length (FileStat.mk true 64) rfl (by decide) (by decide)⟩

/-- C9 counterexample: the argument "12abc" is not a well-formed decimal
integer, yet `strtol` stops at the first non-digit and yields 12, which
passes `args_sanity`; the run proceeds past argument checking (seed
selection happens) and, with all opaque calls succeeding, exits 0. This
refutes the claim that every malformed byte-count argument is rejected
with a non-zero exit before seed selection. -/
theorem C9_counterexample :
    wellFormedDecimal "12abc".toList = false ∧
    argsBytes "12abc".toList = 12 ∧
    (runFromArg "12abc".toList false okEnv).exitCode = 0 ∧
    (runFromArg "12abc".toList false okEnv).events.head? =
      some (Event.selected (selectSeed okEnv.seedFile)) := by
  refine ⟨rfl, by decide, ?_, ?_⟩ <;> decide

/-- C9 amended: for every byte-count argument whose parsed value
(`strtol` base 10, ignoring any trailing non-numeric suffix, converted
to `size_t`) is out of range — 0 or above MAX_BYTES (1024) — the process
exits with status 1 before any seed selection, reseeding or drawing: the
event trace is empty and nothing reaches standard output. Malformed
arguments are rejected only insofar as their parsed value falls outside
[1,1024]. -/
theorem C9_out_of_range_rejected (s : List Char) (hex : Bool) (env : Env)
    (h : argsBytes s = 0 ∨ MAX_BYTES < argsBytes s) :
    (runFromArg s hex env).exitCode = 1 ∧
    (runFromArg s hex env).events = [] ∧
    (runFromArg s hex env).stdout = [] := by
  have hs : args_sanity (argsBytes s) = true := by
    unfold args_sanity
    rcases h with h | h
    · simp [h]
    · have hgt : decide (argsBytes s > MAX_BYTES) = true := decide_eq_true h
      simp [hgt]
  simp [runFromArg, runMain, hs]

theorem C9_witness :
    (argsBytes "2000".toList = 0 ∨ MAX_BYTES < argsBytes "2000".toList) ∧
    ((runFromArg "2000".toList false okEnv).exitCode = 1 ∧
     (runFromArg "2000".toList false okEnv).events = [] ∧
     (runFromArg "2000".toList false okEnv).stdout = []) :=
  ⟨Or.inr (by decide),
    C9_out_of_range_rejected "2000".toList false okEnv (Or.inr (by decide))⟩

/-- C10 counterexample: an accessible non-regular seed path of stat
size 2^31 = 2147483648 (above INT_MAX) falls back to the entropy
device, but the read size is the wrapped `int` value from rand.c:92,
not the artifact's stat size; the original claim's first conjunct fails
at this input. -/
theorem C10_counterexample :
    (FileStat.mk false 2147483648).isReg = false ∧
    ENTROPY_SIZE ≤ (FileStat.mk false 2147483648).stSize ∧
    (selectSeed (FileState.accessible (FileStat.mk false 2147483648))).seed =
      SeedPath.fallback ∧
    (selectSeed (FileState.accessible (FileStat.mk false 2147483648))).size ≠
      (FileStat.mk false 2147483648).stSize := by
  refine ⟨rfl, by decide, by decide, by decide⟩

/-- C10 amended: Fall-through of the too-small check in `seed_rand`:
when the accessible seed path is not a regular file, the size check at
rand.c:83 still runs on the same `lstat` result, so if the invalid
artifact's stat size is at least ENTROPY_SIZE and at most INT_MAX the
read size passed to the fallback device equals the artifact's size (not
the 32-byte default; beyond INT_MAX the narrowing at rand.c:92 wraps
it), and if its stat size is below ENTROPY_SIZE the deletion of the
path is attempted twice. -/
theorem C10_fallthrough_check (st : FileStat) (hr : st.isReg = false) :
    (ENTROPY_SIZE ≤ st.stSize → st.stSize ≤ INT_MAX_C →
      (selectSeed (FileState.accessible st)).seed = SeedPath.fallback ∧
      (selectSeed (FileState.accessible st)).size = st.stSize) ∧
    (st.stSize < ENTROPY_SIZE →
      (selectSeed (FileState.accessible st)).unlinkAttempts = 2) := by
  constructor
  · intro hge hmax
    have hlt : ¬ st.stSize < ENTROPY_SIZE := not_lt.mpr hge
    have hlo : (-2147483648 : Int) ≤ st.stSize := by
      unfold ENTROPY_SIZE at hge
      omega
    have hhi : st.stSize ≤ 2147483647 := hmax
    simp [selectSeed, hr, hlt, toCInt_eq_self hlo hhi]
  · intro hlt
    simp [selectSeed, hr, hlt]

theorem C10_witness :
    (FileStat.mk false 4096).isReg = false ∧
    ((ENTROPY_SIZE ≤ (FileStat.mk false 4096).stSize →
      (FileStat.mk false 4096).stSize ≤ INT_MAX_C →
      (selectSeed (FileState.accessible (FileStat.mk false 4096))).seed =
        SeedPath.fallback ∧
      (selectSeed (FileState.accessible (FileStat.mk false 4096))).size =
        (FileStat.mk false 4096).stSize) ∧
     ((FileStat.mk false 4096).stSize < ENTROPY_SIZE →
      (selectSeed (FileState.accessible (FileStat.mk false 4096))).unlinkAttempts = 2)) :=
  ⟨rfl, C10_fallthrough_check (FileStat.mk false 4096) rfl⟩
